import Mathlib

/-!
Verification of the `circuit-breaker-wrapper` library (`src/index.js`).

The wrapper in `src/index.js` bridges caller-supplied workers and callbacks
into a circuit breaker, emitting lifecycle events.  The breaker engine itself
(the `circuit-breaker-js` dependency) is not part of this repository's
sources, so the engine (metrics window, state machine, admission) is modelled
from the specification; the wrapper functions (`run`, `wrap`,
`emitStateChange`, `emitWithArgs`, `getState`) are translated directly from
`src/index.js`.

Workers are modelled in the class the claims quantify over: workers that
invoke the injected completion function `done` synchronously, exactly once.
A worker is represented by the function from its (non-`done`) argument list
to the argument list it passes to `done`.
-/

namespace CBW

/-- JavaScript values, as far as the wrapper inspects them: the only
inspection the wrapper performs is the truthiness test
`if (callback.apply(this, arguments))` in `src/index.js` line 84. -/
inductive JSVal where
  | undef : JSVal
  | null : JSVal
  | bool : Bool → JSVal
  | nan : JSVal
  | num : ℚ → JSVal
  | str : String → JSVal
  | obj : Nat → JSVal
  | err : String → JSVal
deriving DecidableEq, Repr

/-- JavaScript truthiness: `undefined`, `null`, `false`, `NaN`, `0` and `""`
are falsy; every other value (including any object or `Error`) is truthy. -/
def truthy : JSVal → Bool
  | .undef => false
  | .null => false
  | .bool b => b
  | .nan => false
  | .num q => decide (q ≠ 0)
  | .str s => decide (s ≠ "")
  | .obj _ => true
  | .err _ => true

/-- Breaker configuration, the five options `src/index.js` lines 61-69 feed
into the engine.  Durations are in milliseconds, `errorThreshold` is a
percentage. -/
structure Options where
  windowDuration : Nat
  numBuckets : Nat
  timeoutDuration : Nat
  errorThreshold : ℚ
  volumeThreshold : Nat
deriving DecidableEq, Repr

/-- Modelled from the spec: one time slice of the rolling metrics window
(spec §3 `Bucket`), holding the counts recorded in that slice. -/
structure Bucket where
  totalCount : Nat
  errorCount : Nat
deriving DecidableEq, Repr

def Bucket.empty : Bucket := ⟨0, 0⟩

/-- Breaker states (spec §3 `BreakerState`). -/
inductive BState where
  | Closed : BState
  | Open : BState
  | HalfOpen : BState
deriving DecidableEq, Repr

/-- Modelled from the spec: the breaker engine state (`circuit-breaker-js`,
not in this repository): the circular metrics window (spec §3 `Window`),
the state machine state and its `enteredAt` timestamp (spec §3
`BreakerState`).  Timestamps are in milliseconds. -/
structure Breaker where
  opts : Options
  buckets : List Bucket
  cursor : Nat
  lastRotated : Nat
  state : BState
  enteredAt : Nat
deriving DecidableEq, Repr

/-- Width of one bucket slice: `windowDuration / numBuckets` (spec §4.1). -/
def Options.bucketWidth (o : Options) : Nat := o.windowDuration / o.numBuckets

/-- Modelled from the spec (§4.1): advance the cursor one slice, clearing
the bucket passed onto, `steps` times. -/
def rotateSteps : Breaker → Nat → Breaker
  | b, 0 => b
  | b, s + 1 =>
      let c := (b.cursor + 1) % b.opts.numBuckets
      rotateSteps { b with cursor := c, buckets := b.buckets.set c Bucket.empty } s

/-- Modelled from the spec (§4.1): rotate the window to `now` — advance the
cursor by however many bucket-widths elapsed since `lastRotated`, clearing
each bucket passed over; an elapse of a full window or more clears every
bucket. -/
def Breaker.rotate (b : Breaker) (now : Nat) : Breaker :=
  let w := b.opts.bucketWidth
  if w = 0 then b
  else
    let steps := (now - b.lastRotated) / w
    if steps = 0 then b
    else if b.opts.numBuckets ≤ steps then
      { b with buckets := List.replicate b.opts.numBuckets Bucket.empty,
               cursor := (b.cursor + steps) % b.opts.numBuckets,
               lastRotated := b.lastRotated + steps * w }
    else
      { rotateSteps b steps with lastRotated := b.lastRotated + steps * w }

/-- Metrics snapshot (spec §4.1 `snapshot()`). -/
structure Metrics where
  totalCount : Nat
  errorCount : Nat
  errorPercentage : ℚ
deriving DecidableEq, Repr

/-- Modelled from the spec (§4.1): aggregate all buckets;
`errorPercentage = errorCount * 100 / totalCount` when `totalCount > 0`,
else `0` (the exact rational, written with `Rat.divInt`). -/
def Breaker.snapshot (b : Breaker) : Metrics :=
  let t := (b.buckets.map Bucket.totalCount).sum
  let e := (b.buckets.map Bucket.errorCount).sum
  ⟨t, e, if t = 0 then 0 else Rat.divInt (e * 100) t⟩

/-- Outcome of an admitted call, as reported back into the engine. -/
inductive Outcome where
  | success : Outcome
  | failure : Outcome
deriving DecidableEq, Repr

/-- Modelled from the spec (§4.1 `recordSuccess`/`recordFailure`): rotate the
window to `now`, then increment `totalCount` (and `errorCount` on failure)
in the bucket at the cursor.  This is the metrics half of recording an
outcome, before the state machine re-evaluates. -/
def Breaker.recordCounts (b : Breaker) (now : Nat) (oc : Outcome) : Breaker :=
  let b := b.rotate now
  let old := b.buckets.getD b.cursor Bucket.empty
  let bumped : Bucket :=
    ⟨old.totalCount + 1, old.errorCount + (if oc = .failure then 1 else 0)⟩
  { b with buckets := b.buckets.set b.cursor bumped }

/-- Modelled from the spec (§4.2, §4.3 `reportSuccess`/`reportFailure`):
record the outcome into the window, then re-evaluate the state machine.
From Closed, trip to Open when `totalCount ≥ volumeThreshold` and
`errorPercentage ≥ errorThreshold`; from HalfOpen, the trial outcome decides
Closed (success) or Open again with `enteredAt` reset (failure).  Returns
the new breaker and, when a transition fired, the post-transition state
with the metrics snapshot handed to the transition callback. -/
def Breaker.record (b : Breaker) (now : Nat) (oc : Outcome) :
    Breaker × Option (BState × Metrics) :=
  let b1 := b.recordCounts now oc
  let m := b1.snapshot
  if b1.state = .Closed then
    if b.opts.volumeThreshold ≤ m.totalCount ∧ b.opts.errorThreshold ≤ m.errorPercentage then
      ({ b1 with state := .Open, enteredAt := now }, some (.Open, m))
    else (b1, none)
  else if b1.state = .HalfOpen then
    if oc = .failure then ({ b1 with state := .Open, enteredAt := now }, some (.Open, m))
    else ({ b1 with state := .Closed, enteredAt := now }, some (.Closed, m))
  else (b1, none)

/-- Modelled from the spec (§4.2 `mayRun`, §4.3 `attempt`): Closed admits;
Open admits only once `timeoutDuration` has elapsed since `enteredAt`, in
which case the breaker moves to HalfOpen (no event for entering HalfOpen)
and this call is the trial; otherwise the call is rejected.  HalfOpen admits
the trial call. -/
def Breaker.attempt (b : Breaker) (now : Nat) : Bool × Breaker :=
  if b.state = .Open then
    if b.opts.timeoutDuration ≤ now - b.enteredAt then
      (true, { b with state := .HalfOpen })
    else (false, b)
  else (true, b)

/-- Modelled from the spec (§3 lifecycle): a fresh breaker — empty window,
Closed state. -/
def Breaker.init (o : Options) (now : Nat) : Breaker :=
  { opts := o, buckets := List.replicate o.numBuckets Bucket.empty,
    cursor := 0, lastRotated := now, state := .Closed, enteredAt := now }

/-- `getState` in `src/index.js` lines 28-37, mapping the breaker state to
the string used in event payloads. -/
def stateName : BState → String
  | .Open => "open"
  | .HalfOpen => "halfOpen"
  | .Closed => "closed"

/-- Payload of the `run`, `success`, `failure` and `rejected` events
(`emitWithArgs`, `src/index.js` lines 71-78). -/
structure CallPayload where
  service : String
  name : String
  state : String
  args : List JSVal
deriving DecidableEq, Repr

/-- Payload of the `stateChange`, `open` and `closed` events
(`emitStateChange`, `src/index.js` lines 46-56).  `time` is the `Date.now()`
millisecond timestamp; `duration` is in seconds, `none` standing for
JavaScript `null`. -/
structure ChangePayload where
  service : String
  name : String
  state : String
  duration : Option ℚ
  time : Nat
  totalCount : Nat
  errorCount : Nat
  errorPercentage : ℚ
deriving DecidableEq, Repr

/-- An event emitted on the wrapper's `EventEmitter`:
the event name together with its payload. -/
inductive Emitted where
  | call : String → CallPayload → Emitted
  | change : String → ChangePayload → Emitted
deriving DecidableEq, Repr

/-- One observable action during a `run` call, in program order: the
admission check by the breaker, an event emission, an invocation of the
worker (with the listed arguments, ahead of the injected `done`), or an
invocation of the caller's callback with the listed arguments. -/
inductive Action where
  | attemptCheck : Bool → Action
  | emit : Emitted → Action
  | workerCall : List JSVal → Action
  | cbCall : List JSVal → Action
deriving DecidableEq, Repr

def Action.isWorkerCall : Action → Bool
  | .workerCall _ => true
  | _ => false

def Action.isCbCall : Action → Bool
  | .cbCall _ => true
  | _ => false

/-- The argument list of a callback invocation, `none` for other actions. -/
def Action.cbArgs : Action → Option (List JSVal)
  | .cbCall a => some a
  | _ => none

/-- Whether the trace contains a `run`/`success`/`failure`/`rejected` event
with the given name. -/
def hasCallEvent (tr : List Action) (ev : String) : Bool :=
  tr.any fun a =>
    match a with
    | .emit (.call e _) => e = ev
    | _ => false

/-- The names of all events emitted in the trace, of both payload shapes,
in emission order. -/
def eventNames (tr : List Action) : List String :=
  tr.filterMap fun a =>
    match a with
    | .emit (.call e _) => some e
    | .emit (.change e _) => some e
    | _ => none

/-- The names of the `stateChange`/`open`/`closed` events in the trace,
in emission order. -/
def changeNames (tr : List Action) : List String :=
  tr.filterMap fun a =>
    match a with
    | .emit (.change e _) => some e
    | _ => none

/-- The `stateChange`/`open`/`closed` events in the trace, as
(name, payload) pairs in emission order. -/
def changeEvents (tr : List Action) : List (String × ChangePayload) :=
  tr.filterMap fun a =>
    match a with
    | .emit (.change e p) => some (e, p)
    | _ => none

/-- The payloads of the generic `stateChange` events in the trace — one per
breaker-state transition. -/
def scPayloads (tr : List Action) : List ChangePayload :=
  tr.filterMap fun a =>
    match a with
    | .emit (.change e p) => if e = "stateChange" then some p else none
    | _ => none

/-- The payloads of all `stateChange`/`open`/`closed` events in the trace,
in emission order. -/
def changePayloads (tr : List Action) : List ChangePayload :=
  tr.filterMap fun a =>
    match a with
    | .emit (.change _ p) => some p
    | _ => none

/-- Checks, given the timestamp of the previous state change (if any), that
each payload in the list carries `duration` equal to the seconds elapsed
since the previous state change of either kind — `none` (JavaScript `null`)
when there was none. -/
def durationsOk : Option Nat → List ChangePayload → Bool
  | _, [] => true
  | last, p :: rest =>
      decide (p.duration = last.map fun t => Rat.divInt ((p.time : Int) - t) 1000) &&
        durationsOk (some p.time) rest

/-- The payload record built by `emitStateChange` (`src/index.js` lines
46-56) for a transition into state `st` at time `now`, given the previous
`lastStateChange`. -/
def transitionPayload (service name : String) (st : BState)
    (lastStateChange : Option Nat) (now : Nat) (m : Metrics) : ChangePayload :=
  ⟨service, name, stateName st,
   lastStateChange.map (fun t => Rat.divInt ((now : Int) - t) 1000),
   now, m.totalCount, m.errorCount, m.errorPercentage⟩

/-- `emitWithArgs` in `src/index.js` lines 71-78: build a call-event with the
service, breaker name, current state string and the call's arguments. -/
def emitWithArgs (service name : String) (st : BState) (event : String)
    (args : List JSVal) : Emitted :=
  .call event ⟨service, name, stateName st, args⟩

/-- `emitStateChange` in `src/index.js` lines 39-58: compute the duration in
seconds since the last state change (`null`, i.e. `none`, when there was
none), then emit `stateChange` followed by the state-named event, both with
the identical payload.  Returns the emissions and the new `lastStateChange`
timestamp. -/
def emitStateChange (service name : String) (st : BState)
    (lastStateChange : Option Nat) (now : Nat) (m : Metrics) :
    List Emitted × Nat :=
  let s := stateName st
  let duration : Option ℚ := lastStateChange.map fun t => Rat.divInt ((now : Int) - t) 1000
  let p : ChangePayload :=
    ⟨service, name, s, duration, now, m.totalCount, m.errorCount, m.errorPercentage⟩
  ([.change "stateChange" p, .change s p], now)

/-- The mutable state closed over by `exports.create` in `src/index.js`:
the engine instance and the `lastStateChange` timestamp. -/
structure WState where
  breaker : Breaker
  lastStateChange : Option Nat
deriving DecidableEq, Repr

/-- A worker that calls `done` synchronously exactly once: given the
arguments it was applied to, it yields the arguments it passes to `done`. -/
def Worker : Type := List JSVal → List JSVal

/-- The caller's callback: receives the forwarded arguments and returns a
JavaScript value whose truthiness is the verdict. -/
def Callback : Type := List JSVal → JSVal

/-- The rejection error message built at `src/index.js` line 95. -/
def unavailableMsg (service name : String) : String :=
  "Service Unavailable: " ++ service ++ " (" ++ name ++ ")"

/-- `run` in `src/index.js` lines 80-97, for one call at wall-clock `now`.
`breaker.run(command, fallback)` first checks admission.  When admitted, the
command emits `run`, invokes the worker with `args` plus the injected
`done`; `done` forwards its arguments to `callback`, and on a truthy return
reports a success (possibly firing `emitStateChange` via
`onCircuitOpen`/`onCircuitClose`) then emits `success`, on a falsy return
reports a failure then emits `failure` — the outcome event reading
`getState()` after the report.  When rejected, the fallback emits `rejected`
and invokes `callback` with the synthesized unavailability error.  Returns
the new closure state and the trace of actions in program order. -/
def runModel (service name : String) (w : WState) (now : Nat)
    (worker : Worker) (args : List JSVal) (callback : Callback) :
    WState × List Action :=
  let a := w.breaker.attempt now
  if a.1 then
    let b1 := a.2
    let doneArgs := worker args
    let ret := callback doneArgs
    let oc : Outcome := if truthy ret then .success else .failure
    let rec1 := b1.record now oc
    let b2 := rec1.1
    let changes : List Emitted × Option Nat :=
      match rec1.2 with
      | none => ([], w.lastStateChange)
      | some (_, m) =>
          let e := emitStateChange service name b2.state w.lastStateChange now m
          (e.1, some e.2)
    ({ breaker := b2, lastStateChange := changes.2 },
     [Action.attemptCheck true,
      Action.emit (emitWithArgs service name b1.state "run" args),
      Action.workerCall args,
      Action.cbCall doneArgs]
       ++ changes.1.map Action.emit
       ++ [Action.emit (emitWithArgs service name b2.state
             (if truthy ret then "success" else "failure") args)])
  else
    ({ breaker := a.2, lastStateChange := w.lastStateChange },
     [Action.attemptCheck false,
      Action.emit (emitWithArgs service name a.2.state "rejected" args),
      Action.cbCall [JSVal.err (unavailableMsg service name)]])

/-- One deferred call in a sequence: its wall-clock time, worker, arguments
and callback. -/
structure Call where
  now : Nat
  worker : Worker
  args : List JSVal
  callback : Callback

/-- Run a sequence of calls through the same wrapper, threading the closure
state and concatenating the traces. -/
def runSeq (service name : String) (w : WState) : List Call → WState × List Action
  | [] => (w, [])
  | c :: rest =>
      let r1 := runModel service name w c.now c.worker c.args c.callback
      let r2 := runSeq service name r1.1 rest
      (r2.1, r1.2 ++ r2.2)

/-- The object returned by `emitter.wrap` (`src/index.js` lines 120-128):
the captured argument list and a `run` taking only the callback. -/
structure Wrapped where
  args : List JSVal
  run : WState → Nat → Callback → WState × List Action

/-- `emitter.run` in `src/index.js` lines 107-111: JavaScript splits the
variadic argument list into the worker's arguments and the trailing
callback; with typed arguments that split is already done, and the body
delegates to `run`. -/
def emitterRun (service name : String) (w : WState) (now : Nat)
    (worker : Worker) (args : List JSVal) (callback : Callback) :
    WState × List Action :=
  runModel service name w now worker args callback

/-- `emitter.wrap` in `src/index.js` lines 120-128: capture the argument
list and return `{args, run}` where `run(callback)` delegates to `run` with
the captured worker and arguments. -/
def wrapModel (service name : String) (worker : Worker) (args : List JSVal) :
    Wrapped :=
  { args := args,
    run := fun w now callback => runModel service name w now worker args callback }

/-! ### Concrete fixtures used by witnesses -/

/-- A small concrete configuration: 10 s window, 10 buckets, 1 s timeout,
50 % error threshold, volume threshold 5. -/
def oTest : Options := ⟨10000, 10, 1000, 50, 5⟩

/-- A concrete configuration that trips on the first failure:
volume threshold 1, error threshold 50 %. -/
def oTrip : Options := ⟨10000, 10, 1000, 50, 1⟩

/-- A concrete breaker sitting in the Open state since time 0. -/
def bOpenTest : Breaker := { Breaker.init oTest 0 with state := BState.Open }

/-- Wrapper closure state over `bOpenTest`. -/
def wOpenTest : WState := ⟨bOpenTest, none⟩

/-- Fresh wrapper closure state over a fresh tripping breaker. -/
def wTrip : WState := ⟨Breaker.init oTrip 0, none⟩

/-- Fresh wrapper closure state over a fresh `oTest` breaker. -/
def wFresh : WState := ⟨Breaker.init oTest 0, none⟩

/-- A worker passing its own arguments to `done`. -/
def idWorker : Worker := fun l => l

/-- A callback returning `true`. -/
def cbTrue : Callback := fun _ => JSVal.bool true

/-- A callback returning `false`. -/
def cbFalse : Callback := fun _ => JSVal.bool false

/-! ### Characterization lemmas -/

/-- A rejected admission check leaves the breaker unchanged. -/
lemma attempt_false_eq (b : Breaker) (now : Nat)
    (h : (b.attempt now).1 = false) : (b.attempt now).2 = b := by
  unfold Breaker.attempt at h ⊢
  split at h
  · rename_i h1
    split at h
    · simp at h
    · rename_i h2
      rw [if_pos h1, if_neg h2]
  · simp at h

/-- Full characterization of a rejected `run` call: state untouched, trace is
exactly the admission check, the `rejected` event and the failing callback. -/
lemma runModel_not_admitted (service name : String) (w : WState) (now : Nat)
    (worker : Worker) (args : List JSVal) (callback : Callback)
    (h : (w.breaker.attempt now).1 = false) :
    runModel service name w now worker args callback =
      (w, [Action.attemptCheck false,
           Action.emit (emitWithArgs service name w.breaker.state "rejected" args),
           Action.cbCall [JSVal.err (unavailableMsg service name)]]) := by
  have h2 := attempt_false_eq w.breaker now h
  unfold runModel
  simp [h, h2]

/-- No action mapped from a plain emission is a callback invocation. -/
lemma countP_cb_map_emit (l : List Emitted) :
    (l.map Action.emit).countP Action.isCbCall = 0 := by
  induction l with
  | nil => simp
  | cons e t ih => simp [List.countP_cons, Action.isCbCall, ih]

/-- Actions mapped from plain emissions carry no callback arguments. -/
lemma filterMap_cbArgs_map_emit (l : List Emitted) :
    (l.map Action.emit).filterMap Action.cbArgs = [] := by
  induction l with
  | nil => simp
  | cons e t ih => simp [Action.cbArgs, ih]

/-- No state string produced by `getState` is the literal `"stateChange"`. -/
lemma stateName_ne_stateChange (st : BState) : (stateName st = "stateChange") = False := by
  cases st <;> simp [stateName]

/-- Rotating slices never touches the state machine state. -/
lemma rotateSteps_state (b : Breaker) (n : Nat) : (rotateSteps b n).state = b.state := by
  induction n generalizing b with
  | zero => rfl
  | succ k ih => simp [rotateSteps, ih]

/-- Rotating the window never touches the state machine state. -/
lemma rotate_state (b : Breaker) (now : Nat) : (b.rotate now).state = b.state := by
  unfold Breaker.rotate
  dsimp only
  split_ifs <;> simp [rotateSteps_state]

/-- Recording counts never touches the state machine state. -/
lemma recordCounts_state (b : Breaker) (now : Nat) (oc : Outcome) :
    (b.recordCounts now oc).state = b.state := by
  unfold Breaker.recordCounts
  simp [rotate_state]

/-- `emitStateChange` emits exactly the `stateChange` event followed by the
state-named event, both carrying the identical `transitionPayload`. -/
lemma emitStateChange_eq (service name : String) (st : BState)
    (lastStateChange : Option Nat) (now : Nat) (m : Metrics) :
    emitStateChange service name st lastStateChange now m =
      ([Emitted.change "stateChange" (transitionPayload service name st lastStateChange now m),
        Emitted.change (stateName st) (transitionPayload service name st lastStateChange now m)],
       now) := rfl

lemma scPayloads_append (a b : List Action) :
    scPayloads (a ++ b) = scPayloads a ++ scPayloads b := by
  simp [scPayloads]

lemma changePayloads_append (a b : List Action) :
    changePayloads (a ++ b) = changePayloads a ++ changePayloads b := by
  simp [changePayloads]

/-- Per-call characterization of the state-change bookkeeping of `run`:
either no transition fires — no state-change events, `lastStateChange`
untouched — or exactly one fires, emitting one `stateChange` payload
(duplicated onto the state-named event) stamped `time = now` with
`duration` measured in seconds from the previous `lastStateChange`, and
updating `lastStateChange` to `now`. -/
lemma runModel_transition_bookkeeping (service name : String) (w : WState) (now : Nat)
    (worker : Worker) (args : List JSVal) (callback : Callback) :
    (scPayloads (runModel service name w now worker args callback).2 = [] ∧
     changePayloads (runModel service name w now worker args callback).2 = [] ∧
     (runModel service name w now worker args callback).1.lastStateChange =
       w.lastStateChange) ∨
    (∃ p : ChangePayload,
      scPayloads (runModel service name w now worker args callback).2 = [p] ∧
      changePayloads (runModel service name w now worker args callback).2 = [p, p] ∧
      p.time = now ∧
      p.duration = w.lastStateChange.map (fun t => Rat.divInt ((now : Int) - t) 1000) ∧
      (runModel service name w now worker args callback).1.lastStateChange = some now) := by
  cases hadm : (w.breaker.attempt now).1
  · left
    rw [runModel_not_admitted service name w now worker args callback hadm]
    exact ⟨rfl, rfl, rfl⟩
  · rcases hrec : ((w.breaker.attempt now).2.record now
        (if truthy (callback (worker args)) then Outcome.success else Outcome.failure)).2
      with _ | ⟨st, m⟩
    · left
      unfold runModel
      simp [hadm, hrec, scPayloads, changePayloads, emitWithArgs]
    · right
      refine ⟨⟨service, name,
        stateName ((w.breaker.attempt now).2.record now
          (if truthy (callback (worker args)) then Outcome.success
           else Outcome.failure)).1.state,
        w.lastStateChange.map (fun t => Rat.divInt ((now : Int) - t) 1000), now,
        m.totalCount, m.errorCount, m.errorPercentage⟩, ?_, ?_, rfl, rfl, ?_⟩ <;>
        (unfold runModel
         simp [hadm, hrec, scPayloads, changePayloads, emitStateChange, emitWithArgs,
           stateName_ne_stateChange])

/-- Duration bookkeeping over a whole call sequence: every `stateChange`
payload's `duration` is the seconds elapsed since the previous transition
(`none` for the first one relative to the starting `lastStateChange`), and
every transition duplicates its payload onto the adjacent state-named
event. -/
lemma runSeq_durations (service name : String) (calls : List Call) (w : WState) :
    durationsOk w.lastStateChange (scPayloads (runSeq service name w calls).2) = true ∧
    changePayloads (runSeq service name w calls).2 =
      (scPayloads (runSeq service name w calls).2).flatMap (fun p => [p, p]) := by
  induction calls generalizing w with
  | nil => simp [runSeq, scPayloads, changePayloads, durationsOk]
  | cons c rest ih =>
      have ihr := ih (runModel service name w c.now c.worker c.args c.callback).1
      rcases runModel_transition_bookkeeping service name w c.now c.worker c.args c.callback
        with ⟨h1, h2, h3⟩ | ⟨p, h1, h2, h4, h5, h3⟩
      · rw [h3] at ihr
        simp only [runSeq, scPayloads_append, changePayloads_append, h1, h2,
          List.nil_append]
        exact ihr
      · rw [h3] at ihr
        simp only [runSeq, scPayloads_append, changePayloads_append, h1, h2]
        constructor
        · simp only [List.cons_append, List.nil_append, durationsOk, Bool.and_eq_true,
            decide_eq_true_eq]
          refine ⟨?_, ?_⟩
          · rw [h5, h4]
          · rw [h4]
            exact ihr.1
        · simp [ihr.2]

/-- A breaker that is Open and within its timeout rejects one call and is
left untouched; by induction this extends to whole call sequences. -/
lemma open_rejects_seq (service name : String) (w : WState) (calls : List Call)
    (hopen : w.breaker.state = BState.Open)
    (hc : ∀ c ∈ calls, w.breaker.enteredAt ≤ c.now ∧
      c.now < w.breaker.enteredAt + w.breaker.opts.timeoutDuration) :
    (runSeq service name w calls).1 = w ∧
    (runSeq service name w calls).2.countP Action.isWorkerCall = 0 := by
  revert hc
  induction calls with
  | nil =>
      intro _
      simp [runSeq]
  | cons c rest ih =>
      intro hc
      obtain ⟨hle, hlt⟩ := hc c (List.mem_cons_self c rest)
      have hatt : (w.breaker.attempt c.now).1 = false := by
        unfold Breaker.attempt
        rw [if_pos hopen, if_neg (by omega)]
      have hr := runModel_not_admitted service name w c.now c.worker c.args c.callback hatt
      have ihh := ih (fun d hd => hc d (List.mem_cons_of_mem c hd))
      simp only [runSeq, hr]
      refine ⟨ihh.1, ?_⟩
      simp [List.countP_append, List.countP_cons, Action.isWorkerCall, ihh.2]

/-! ### Claims -/

/-- C1: every invocation of `run` invokes the callback exactly once, on every
code path — admitted call with a truthy verdict, admitted call with a falsy
verdict, and rejected call (the worker class being workers that call `done`
synchronously exactly once). -/
theorem callback_exactly_once (service name : String) (w : WState) (now : Nat)
    (worker : Worker) (args : List JSVal) (callback : Callback) :
    (runModel service name w now worker args callback).2.countP Action.isCbCall = 1 := by
  unfold runModel
  cases hadm : (w.breaker.attempt now).1 <;>
    simp [hadm, List.countP_append, List.countP_cons, Action.isCbCall, countP_cb_map_emit]

/-- C2: a rejected `run` call never invokes the worker, records no outcome
into the metrics (the whole closure state is unchanged), emits no `run`,
`success` or `failure` event, emits a `rejected` event, and invokes the
callback exactly once with an error whose message is exactly
`Service Unavailable: <service> (<name>)`. -/
theorem rejected_call_behavior (service name : String) (w : WState) (now : Nat)
    (worker : Worker) (args : List JSVal) (callback : Callback)
    (h : (w.breaker.attempt now).1 = false) :
    (runModel service name w now worker args callback).1 = w ∧
    (runModel service name w now worker args callback).2.countP Action.isWorkerCall = 0 ∧
    hasCallEvent (runModel service name w now worker args callback).2 "run" = false ∧
    hasCallEvent (runModel service name w now worker args callback).2 "success" = false ∧
    hasCallEvent (runModel service name w now worker args callback).2 "failure" = false ∧
    hasCallEvent (runModel service name w now worker args callback).2 "rejected" = true ∧
    (runModel service name w now worker args callback).2.filterMap Action.cbArgs =
      [[JSVal.err (unavailableMsg service name)]] := by
  rw [runModel_not_admitted service name w now worker args callback h]
  exact ⟨rfl, rfl, rfl, rfl, rfl, rfl, rfl⟩

/-- Witness for C2: a concrete Open breaker, rejected call at time 5. -/
theorem rejected_call_behavior_witness :
    (wOpenTest.breaker.attempt 5).1 = false ∧
    ((runModel "S" "N" wOpenTest 5 idWorker [JSVal.num 1] cbTrue).1 = wOpenTest ∧
     (runModel "S" "N" wOpenTest 5 idWorker [JSVal.num 1] cbTrue).2.countP Action.isWorkerCall = 0 ∧
     hasCallEvent (runModel "S" "N" wOpenTest 5 idWorker [JSVal.num 1] cbTrue).2 "run" = false ∧
     hasCallEvent (runModel "S" "N" wOpenTest 5 idWorker [JSVal.num 1] cbTrue).2 "success" = false ∧
     hasCallEvent (runModel "S" "N" wOpenTest 5 idWorker [JSVal.num 1] cbTrue).2 "failure" = false ∧
     hasCallEvent (runModel "S" "N" wOpenTest 5 idWorker [JSVal.num 1] cbTrue).2 "rejected" = true ∧
     (runModel "S" "N" wOpenTest 5 idWorker [JSVal.num 1] cbTrue).2.filterMap Action.cbArgs =
       [[JSVal.err (unavailableMsg "S" "N")]]) :=
  ⟨by decide, rejected_call_behavior "S" "N" wOpenTest 5 idWorker [JSVal.num 1] cbTrue (by decide)⟩

/-- C3: for an admitted call, the injected `done` forwards exactly the
arguments the worker gave it, unmodified, to the callback (the callback is
invoked exactly once, with precisely the worker's `done` arguments); the
callback's boolean return alone decides the outcome: `true` records a
success into the breaker and emits a `success` event, `false` records a
failure and emits a `failure` event — regardless of which values (error
values included) were among the forwarded arguments. -/
theorem admitted_verdict_forwarding (service name : String) (w : WState) (now : Nat)
    (worker : Worker) (args : List JSVal) (callback : Callback) (v : Bool)
    (h : (w.breaker.attempt now).1 = true)
    (hcb : callback (worker args) = JSVal.bool v) :
    (runModel service name w now worker args callback).2.filterMap Action.cbArgs =
      [worker args] ∧
    (runModel service name w now worker args callback).1.breaker =
      ((w.breaker.attempt now).2.record now
        (if v then Outcome.success else Outcome.failure)).1 ∧
    hasCallEvent (runModel service name w now worker args callback).2
      (if v then "success" else "failure") = true ∧
    hasCallEvent (runModel service name w now worker args callback).2
      (if v then "failure" else "success") = false := by
  unfold runModel
  rcases hrec : ((w.breaker.attempt now).2.record now
      (if v then Outcome.success else Outcome.failure)).2 with _ | ⟨st, m⟩ <;>
    cases v <;>
      simp_all +decide [truthy, hasCallEvent, filterMap_cbArgs_map_emit,
        emitStateChange, emitWithArgs, Action.cbArgs]

/-- Witness for C3: fresh breaker, identity worker, callback returning
`true`. -/
theorem admitted_verdict_forwarding_witness :
    ((wFresh.breaker.attempt 5).1 = true ∧
      cbTrue (idWorker [JSVal.num 1]) = JSVal.bool true) ∧
    ((runModel "S" "N" wFresh 5 idWorker [JSVal.num 1] cbTrue).2.filterMap Action.cbArgs =
       [idWorker [JSVal.num 1]] ∧
     (runModel "S" "N" wFresh 5 idWorker [JSVal.num 1] cbTrue).1.breaker =
       ((wFresh.breaker.attempt 5).2.record 5
         (if true then Outcome.success else Outcome.failure)).1 ∧
     hasCallEvent (runModel "S" "N" wFresh 5 idWorker [JSVal.num 1] cbTrue).2
       (if true then "success" else "failure") = true ∧
     hasCallEvent (runModel "S" "N" wFresh 5 idWorker [JSVal.num 1] cbTrue).2
       (if true then "failure" else "success") = false) :=
  ⟨⟨by decide, by decide⟩,
   admitted_verdict_forwarding "S" "N" wFresh 5 idWorker [JSVal.num 1] cbTrue true
     (by decide) (by decide)⟩

/-- Counterexample to C4 as stated: an admitted call with a synchronously
completing worker and a callback returning `false` — the first failure on a
volume-threshold-1 breaker — emits the event sequence
`["run","stateChange","open","failure"]`, not exactly `["run","failure"]`:
the state-change events of the transition the outcome itself triggers fire
in between. -/
theorem run_event_sequence_counterexample :
    (wTrip.breaker.attempt 5).1 = true ∧
    cbFalse (idWorker [JSVal.num 1]) = JSVal.bool false ∧
    eventNames (runModel "S" "N" wTrip 5 idWorker [JSVal.num 1] cbFalse).2 =
      ["run", "stateChange", "open", "failure"] ∧
    eventNames (runModel "S" "N" wTrip 5 idWorker [JSVal.num 1] cbFalse).2 ≠
      ["run", "failure"] := by
  decide

/-- C4 (amended): the admission check is the first action of every `run`
call, before any event is emitted; a `run` event is emitted only when the
call is admitted; and for an admitted call with a synchronously completing
worker whose recorded outcome triggers no state transition, the full trace
is exactly the admission check, the `run` event, the worker invocation, the
callback invocation, and the `success` (callback returned `true`) or
`failure` (callback returned `false`) event — in particular `run` is
emitted before the worker is invoked and the events are exactly
`["run","success"]` resp. `["run","failure"]`. -/
theorem run_event_order (service name : String) (w : WState) (now : Nat)
    (worker : Worker) (args : List JSVal) (callback : Callback) :
    (runModel service name w now worker args callback).2.head? =
      some (Action.attemptCheck (w.breaker.attempt now).1) ∧
    (∀ p, Action.emit (Emitted.call "run" p) ∈
        (runModel service name w now worker args callback).2 →
      (w.breaker.attempt now).1 = true) ∧
    (∀ v : Bool, (w.breaker.attempt now).1 = true →
      callback (worker args) = JSVal.bool v →
      ((w.breaker.attempt now).2.record now
        (if v then Outcome.success else Outcome.failure)).2 = none →
      (runModel service name w now worker args callback).2 =
        [Action.attemptCheck true,
         Action.emit (emitWithArgs service name (w.breaker.attempt now).2.state "run" args),
         Action.workerCall args,
         Action.cbCall (worker args),
         Action.emit (emitWithArgs service name
           ((w.breaker.attempt now).2.record now
             (if v then Outcome.success else Outcome.failure)).1.state
           (if v then "success" else "failure") args)]) := by
  refine ⟨?_, ?_, ?_⟩
  · unfold runModel
    cases hadm : (w.breaker.attempt now).1 <;> simp [hadm]
  · intro p hp
    cases hadm : (w.breaker.attempt now).1
    · rw [runModel_not_admitted service name w now worker args callback hadm] at hp
      simp [emitWithArgs] at hp
    · rfl
  · intro v hadm hcb htr
    unfold runModel
    cases v <;> simp_all +decide [truthy]

/-- Witness for C4: fresh breaker, identity worker, callback returning
`true`; the universally quantified conjuncts are instantiated at the
membership hypothesis of the run-event trace. -/
theorem run_event_order_witness :
    ((wFresh.breaker.attempt 5).1 = true ∧
      cbTrue (idWorker [JSVal.num 1]) = JSVal.bool true ∧
      ((wFresh.breaker.attempt 5).2.record 5
        (if true then Outcome.success else Outcome.failure)).2 = none) ∧
    (runModel "S" "N" wFresh 5 idWorker [JSVal.num 1] cbTrue).2 =
      [Action.attemptCheck true,
       Action.emit (emitWithArgs "S" "N" (wFresh.breaker.attempt 5).2.state "run" [JSVal.num 1]),
       Action.workerCall [JSVal.num 1],
       Action.cbCall (idWorker [JSVal.num 1]),
       Action.emit (emitWithArgs "S" "N"
         ((wFresh.breaker.attempt 5).2.record 5
           (if true then Outcome.success else Outcome.failure)).1.state
         (if true then "success" else "failure") [JSVal.num 1])] :=
  ⟨⟨by decide, by decide, by decide⟩,
   (run_event_order "S" "N" wFresh 5 idWorker [JSVal.num 1] cbTrue).2.2 true
     (by decide) (by decide) (by decide)⟩

/-- C9: the success/failure verdict is decided by JavaScript truthiness of
the callback's return value, not by strict boolean equality: any falsy
return (`undefined`, `null`, `0`, `""`, `NaN`, `false`) records a failure
and emits `failure`, and any truthy return — boolean or not — records a
success and emits `success`. -/
theorem truthiness_decides_verdict (service name : String) (w : WState) (now : Nat)
    (worker : Worker) (args : List JSVal) (callback : Callback)
    (h : (w.breaker.attempt now).1 = true) :
    (truthy (callback (worker args)) = false →
      (runModel service name w now worker args callback).1.breaker =
        ((w.breaker.attempt now).2.record now Outcome.failure).1 ∧
      hasCallEvent (runModel service name w now worker args callback).2 "failure" = true ∧
      hasCallEvent (runModel service name w now worker args callback).2 "success" = false) ∧
    (truthy (callback (worker args)) = true →
      (runModel service name w now worker args callback).1.breaker =
        ((w.breaker.attempt now).2.record now Outcome.success).1 ∧
      hasCallEvent (runModel service name w now worker args callback).2 "success" = true ∧
      hasCallEvent (runModel service name w now worker args callback).2 "failure" = false) ∧
    (truthy JSVal.undef = false ∧ truthy JSVal.null = false ∧
      truthy (JSVal.num 0) = false ∧ truthy (JSVal.str "") = false ∧
      truthy JSVal.nan = false ∧ truthy (JSVal.bool false) = false) := by
  refine ⟨?_, ?_, by decide⟩ <;> intro hv <;>
    unfold runModel <;>
      rcases hrec : ((w.breaker.attempt now).2.record now
          (if truthy (callback (worker args)) then Outcome.success
           else Outcome.failure)).2 with _ | ⟨st, m⟩ <;>
        simp_all +decide [hasCallEvent, emitStateChange, emitWithArgs]

/-- Witness for C9: fresh breaker, callback returning the truthy non-boolean
string value `"ok"`. -/
theorem truthiness_decides_verdict_witness :
    (wFresh.breaker.attempt 5).1 = true ∧
    ((truthy ((fun _ => JSVal.str "ok") (idWorker [JSVal.num 1])) = false →
      (runModel "S" "N" wFresh 5 idWorker [JSVal.num 1] (fun _ => JSVal.str "ok")).1.breaker =
        ((wFresh.breaker.attempt 5).2.record 5 Outcome.failure).1 ∧
      hasCallEvent (runModel "S" "N" wFresh 5 idWorker [JSVal.num 1] (fun _ => JSVal.str "ok")).2 "failure" = true ∧
      hasCallEvent (runModel "S" "N" wFresh 5 idWorker [JSVal.num 1] (fun _ => JSVal.str "ok")).2 "success" = false) ∧
    (truthy ((fun _ => JSVal.str "ok") (idWorker [JSVal.num 1])) = true →
      (runModel "S" "N" wFresh 5 idWorker [JSVal.num 1] (fun _ => JSVal.str "ok")).1.breaker =
        ((wFresh.breaker.attempt 5).2.record 5 Outcome.success).1 ∧
      hasCallEvent (runModel "S" "N" wFresh 5 idWorker [JSVal.num 1] (fun _ => JSVal.str "ok")).2 "success" = true ∧
      hasCallEvent (runModel "S" "N" wFresh 5 idWorker [JSVal.num 1] (fun _ => JSVal.str "ok")).2 "failure" = false) ∧
    (truthy JSVal.undef = false ∧ truthy JSVal.null = false ∧
      truthy (JSVal.num 0) = false ∧ truthy (JSVal.str "") = false ∧
      truthy JSVal.nan = false ∧ truthy (JSVal.bool false) = false)) :=
  ⟨by decide,
   truthiness_decides_verdict "S" "N" wFresh 5 idWorker [JSVal.num 1]
     (fun _ => JSVal.str "ok") (by decide)⟩

/-- C5: (1) if, immediately after recording an outcome from the Closed
state, `totalCount ≥ volumeThreshold` and `errorPercentage ≥
errorThreshold`, the breaker is Open with `enteredAt` stamped to the
recording time; (2) while Open, every `run` call strictly before
`enteredAt + timeoutDuration` is rejected — the worker is never invoked and
the whole closure state is unchanged; (3) while the post-record
`totalCount` is below `volumeThreshold`, a Closed breaker stays Closed
regardless of error rate. -/
theorem threshold_trip_and_rejection (service name : String) (b : Breaker) (now : Nat)
    (oc : Outcome) (w : WState) (calls : List Call) :
    (b.state = BState.Closed →
      b.opts.volumeThreshold ≤ (b.recordCounts now oc).snapshot.totalCount →
      b.opts.errorThreshold ≤ (b.recordCounts now oc).snapshot.errorPercentage →
      (b.record now oc).1.state = BState.Open ∧ (b.record now oc).1.enteredAt = now) ∧
    (w.breaker.state = BState.Open →
      (∀ c ∈ calls, w.breaker.enteredAt ≤ c.now ∧
        c.now < w.breaker.enteredAt + w.breaker.opts.timeoutDuration) →
      (runSeq service name w calls).1 = w ∧
      (runSeq service name w calls).2.countP Action.isWorkerCall = 0) ∧
    (b.state = BState.Closed →
      (b.recordCounts now oc).snapshot.totalCount < b.opts.volumeThreshold →
      (b.record now oc).1.state = BState.Closed) := by
  refine ⟨?_, fun hopen hc => open_rejects_seq service name w calls hopen hc, ?_⟩
  · intro hclosed hv he
    have hstate : (b.recordCounts now oc).state = BState.Closed := by
      rw [recordCounts_state]; exact hclosed
    unfold Breaker.record
    simp [hstate, hv, he]
  · intro hclosed hv
    have hstate : (b.recordCounts now oc).state = BState.Closed := by
      rw [recordCounts_state]; exact hclosed
    have hnot : ¬ b.opts.volumeThreshold ≤ (b.recordCounts now oc).snapshot.totalCount := by
      omega
    unfold Breaker.record
    simp [hstate, hnot]

/-- Witness for C5: the trip at a concrete first failure on a
volume-threshold-1 breaker; rejection of one concrete in-timeout call on a
concrete Open breaker; and Closed persistence on a volume-threshold-5
breaker after one failure. -/
theorem threshold_trip_and_rejection_witness :
    ((Breaker.init oTrip 0).state = BState.Closed ∧
      oTrip.volumeThreshold ≤ ((Breaker.init oTrip 0).recordCounts 5 Outcome.failure).snapshot.totalCount ∧
      oTrip.errorThreshold ≤ ((Breaker.init oTrip 0).recordCounts 5 Outcome.failure).snapshot.errorPercentage ∧
      ((Breaker.init oTrip 0).record 5 Outcome.failure).1.state = BState.Open ∧
      ((Breaker.init oTrip 0).record 5 Outcome.failure).1.enteredAt = 5) ∧
    (wOpenTest.breaker.state = BState.Open ∧
      (∀ c ∈ ([⟨5, idWorker, [], cbTrue⟩] : List Call), wOpenTest.breaker.enteredAt ≤ c.now ∧
        c.now < wOpenTest.breaker.enteredAt + wOpenTest.breaker.opts.timeoutDuration) ∧
      (runSeq "S" "N" wOpenTest [⟨5, idWorker, [], cbTrue⟩]).1 = wOpenTest ∧
      (runSeq "S" "N" wOpenTest [⟨5, idWorker, [], cbTrue⟩]).2.countP Action.isWorkerCall = 0) ∧
    ((Breaker.init oTest 0).state = BState.Closed ∧
      ((Breaker.init oTest 0).recordCounts 5 Outcome.failure).snapshot.totalCount <
        oTest.volumeThreshold ∧
      ((Breaker.init oTest 0).record 5 Outcome.failure).1.state = BState.Closed) := by
  have h := threshold_trip_and_rejection "S" "N" (Breaker.init oTrip 0) 5 Outcome.failure
    wOpenTest [⟨5, idWorker, [], cbTrue⟩]
  have h3 := threshold_trip_and_rejection "S" "N" (Breaker.init oTest 0) 5 Outcome.failure
    wOpenTest []
  refine ⟨⟨by decide, by decide, by decide, ?_⟩, ⟨by decide, ?_, ?_⟩, ⟨by decide, by decide, ?_⟩⟩
  · exact h.1 (by decide) (by decide) (by decide)
  · intro c hcmem
    fin_cases hcmem
    exact ⟨by decide, by decide⟩
  · exact h.2.1 (by decide) (by
      intro c hcmem
      fin_cases hcmem
      exact ⟨by decide, by decide⟩)
  · exact h3.2.2 (by decide) (by decide)

/-- C6: `wrap(fn, args)` returns an object carrying exactly the bound
argument list, and its `run(cb)` is extensionally identical to calling
`run(fn, args, cb)` directly — same closure-state update, same worker
arguments, same emitted event sequence, for every breaker state, time and
callback. -/
theorem wrap_run_equivalence (service name : String) (worker : Worker) (args : List JSVal) :
    (wrapModel service name worker args).args = args ∧
    ∀ (w : WState) (now : Nat) (callback : Callback),
      (wrapModel service name worker args).run w now callback =
        emitterRun service name w now worker args callback :=
  ⟨rfl, fun _ _ _ => rfl⟩

/-- Counterexample to C7 as stated: at a concrete breaker-state transition
(first failure on a volume-threshold-1 breaker) the two state-change events
fire as `stateChange` first and the state-named `open` event second — not
the state-named event first. -/
theorem state_change_order_counterexample :
    changeNames (runModel "S" "N" wTrip 5 idWorker [JSVal.num 1] cbFalse).2 =
      ["stateChange", "open"] ∧
    changeNames (runModel "S" "N" wTrip 5 idWorker [JSVal.num 1] cbFalse).2 ≠
      ["open", "stateChange"] := by
  decide

/-- C7 (amended): for every breaker-state transition, exactly two events are
emitted with an identical payload, in a fixed order: the generic
`stateChange` event followed immediately by the state-named (`open` or
`closed`) event. -/
theorem state_change_event_pair (service name : String) (w : WState) (now : Nat)
    (worker : Worker) (args : List JSVal) (callback : Callback) (st : BState) (m : Metrics)
    (h : (w.breaker.attempt now).1 = true)
    (htr : ((w.breaker.attempt now).2.record now
      (if truthy (callback (worker args)) then Outcome.success else Outcome.failure)).2 =
        some (st, m)) :
    changeEvents (runModel service name w now worker args callback).2 =
      [("stateChange",
        transitionPayload service name
          ((w.breaker.attempt now).2.record now
            (if truthy (callback (worker args)) then Outcome.success
             else Outcome.failure)).1.state w.lastStateChange now m),
       (stateName ((w.breaker.attempt now).2.record now
          (if truthy (callback (worker args)) then Outcome.success
           else Outcome.failure)).1.state,
        transitionPayload service name
          ((w.breaker.attempt now).2.record now
            (if truthy (callback (worker args)) then Outcome.success
             else Outcome.failure)).1.state w.lastStateChange now m)] ∧
    (∃ pre post, (runModel service name w now worker args callback).2 =
      pre ++
      [Action.emit (Emitted.change "stateChange"
         (transitionPayload service name
           ((w.breaker.attempt now).2.record now
             (if truthy (callback (worker args)) then Outcome.success
              else Outcome.failure)).1.state w.lastStateChange now m)),
       Action.emit (Emitted.change
         (stateName ((w.breaker.attempt now).2.record now
           (if truthy (callback (worker args)) then Outcome.success
            else Outcome.failure)).1.state)
         (transitionPayload service name
           ((w.breaker.attempt now).2.record now
             (if truthy (callback (worker args)) then Outcome.success
              else Outcome.failure)).1.state w.lastStateChange now m))] ++ post) := by
  constructor
  · unfold runModel
    simp [h, htr, emitStateChange_eq, changeEvents, emitWithArgs, stateName_ne_stateChange]
  · refine ⟨[Action.attemptCheck true,
      Action.emit (emitWithArgs service name (w.breaker.attempt now).2.state "run" args),
      Action.workerCall args,
      Action.cbCall (worker args)],
      [Action.emit (emitWithArgs service name
        ((w.breaker.attempt now).2.record now
          (if truthy (callback (worker args)) then Outcome.success
           else Outcome.failure)).1.state
        (if truthy (callback (worker args)) then "success" else "failure") args)], ?_⟩
    unfold runModel
    simp [h, htr, emitStateChange_eq]

/-- Witness for C7 (amended): the concrete trip of `state_change_order_counterexample`,
with the two change events and their shared payload computed explicitly. -/
theorem state_change_event_pair_witness :
    ((wTrip.breaker.attempt 5).1 = true ∧
      ((wTrip.breaker.attempt 5).2.record 5
        (if truthy (cbFalse (idWorker [JSVal.num 1])) then Outcome.success
         else Outcome.failure)).2 = some (BState.Open, ⟨1, 1, 100⟩)) ∧
    (changeEvents (runModel "S" "N" wTrip 5 idWorker [JSVal.num 1] cbFalse).2 =
      [("stateChange",
        transitionPayload "S" "N"
          ((wTrip.breaker.attempt 5).2.record 5
            (if truthy (cbFalse (idWorker [JSVal.num 1])) then Outcome.success
             else Outcome.failure)).1.state wTrip.lastStateChange 5 ⟨1, 1, 100⟩),
       (stateName ((wTrip.breaker.attempt 5).2.record 5
          (if truthy (cbFalse (idWorker [JSVal.num 1])) then Outcome.success
           else Outcome.failure)).1.state,
        transitionPayload "S" "N"
          ((wTrip.breaker.attempt 5).2.record 5
            (if truthy (cbFalse (idWorker [JSVal.num 1])) then Outcome.success
             else Outcome.failure)).1.state wTrip.lastStateChange 5 ⟨1, 1, 100⟩)] ∧
     (∃ pre post, (runModel "S" "N" wTrip 5 idWorker [JSVal.num 1] cbFalse).2 =
       pre ++
       [Action.emit (Emitted.change "stateChange"
          (transitionPayload "S" "N"
            ((wTrip.breaker.attempt 5).2.record 5
              (if truthy (cbFalse (idWorker [JSVal.num 1])) then Outcome.success
               else Outcome.failure)).1.state wTrip.lastStateChange 5 ⟨1, 1, 100⟩)),
        Action.emit (Emitted.change
          (stateName ((wTrip.breaker.attempt 5).2.record 5
            (if truthy (cbFalse (idWorker [JSVal.num 1])) then Outcome.success
             else Outcome.failure)).1.state)
          (transitionPayload "S" "N"
            ((wTrip.breaker.attempt 5).2.record 5
              (if truthy (cbFalse (idWorker [JSVal.num 1])) then Outcome.success
               else Outcome.failure)).1.state wTrip.lastStateChange 5 ⟨1, 1, 100⟩))] ++ post)) :=
  ⟨⟨by decide, by decide⟩,
   state_change_event_pair "S" "N" wTrip 5 idWorker [JSVal.num 1] cbFalse BState.Open
     ⟨1, 1, 100⟩ (by decide) (by decide)⟩

/-- C8: starting from a freshly created wrapper (`lastStateChange` unset),
every `stateChange` payload over any call sequence carries `duration` equal
to the seconds elapsed since the previous state change of either kind on
the same breaker — `null` on the very first — and every state-named event
duplicates the payload of its adjacent `stateChange` event. -/
theorem state_change_duration_semantics (service name : String) (w : WState)
    (calls : List Call) (h : w.lastStateChange = none) :
    durationsOk none (scPayloads (runSeq service name w calls).2) = true ∧
    changePayloads (runSeq service name w calls).2 =
      (scPayloads (runSeq service name w calls).2).flatMap (fun p => [p, p]) := by
  have hx := runSeq_durations service name calls w
  rwa [h] at hx

/-- Witness for C8: a fresh tripping breaker, one failing call at t = 5 ms
(opens, duration `null`) and one succeeding trial call at t = 1200 ms
(closes, duration 1.195 s). -/
theorem state_change_duration_semantics_witness :
    wTrip.lastStateChange = none ∧
    (durationsOk none (scPayloads
       (runSeq "S" "N" wTrip
         [⟨5, idWorker, [], cbFalse⟩, ⟨1200, idWorker, [], cbTrue⟩]).2) = true ∧
     changePayloads (runSeq "S" "N" wTrip
         [⟨5, idWorker, [], cbFalse⟩, ⟨1200, idWorker, [], cbTrue⟩]).2 =
       (scPayloads (runSeq "S" "N" wTrip
         [⟨5, idWorker, [], cbFalse⟩, ⟨1200, idWorker, [], cbTrue⟩]).2).flatMap
         (fun p => [p, p])) :=
  ⟨by decide,
   state_change_duration_semantics "S" "N" wTrip
     [⟨5, idWorker, [], cbFalse⟩, ⟨1200, idWorker, [], cbTrue⟩] (by decide)⟩

/-- C10: when recording an admitted call's outcome triggers a state
transition, the full trace shows the `stateChange` and state-named events
emitted synchronously after the callback verdict and before the `success`
or `failure` event of the triggering call, and that outcome event's `state`
field is the post-transition state (the state read by `getState()` after
the report), not the state in which the call was admitted. -/
theorem transition_precedes_outcome_event (service name : String) (w : WState) (now : Nat)
    (worker : Worker) (args : List JSVal) (callback : Callback) (st : BState) (m : Metrics)
    (h : (w.breaker.attempt now).1 = true)
    (htr : ((w.breaker.attempt now).2.record now
      (if truthy (callback (worker args)) then Outcome.success else Outcome.failure)).2 =
        some (st, m)) :
    (runModel service name w now worker args callback).2 =
      [Action.attemptCheck true,
       Action.emit (emitWithArgs service name (w.breaker.attempt now).2.state "run" args),
       Action.workerCall args,
       Action.cbCall (worker args),
       Action.emit (Emitted.change "stateChange"
         (transitionPayload service name
           ((w.breaker.attempt now).2.record now
             (if truthy (callback (worker args)) then Outcome.success
              else Outcome.failure)).1.state w.lastStateChange now m)),
       Action.emit (Emitted.change
         (stateName ((w.breaker.attempt now).2.record now
           (if truthy (callback (worker args)) then Outcome.success
            else Outcome.failure)).1.state)
         (transitionPayload service name
           ((w.breaker.attempt now).2.record now
             (if truthy (callback (worker args)) then Outcome.success
              else Outcome.failure)).1.state w.lastStateChange now m)),
       Action.emit (emitWithArgs service name
         ((w.breaker.attempt now).2.record now
           (if truthy (callback (worker args)) then Outcome.success
            else Outcome.failure)).1.state
         (if truthy (callback (worker args)) then "success" else "failure") args)] := by
  unfold runModel
  simp [h, htr, emitStateChange_eq]

/-- Witness for C10: the concrete trip — first failure on a
volume-threshold-1 breaker — with the seven-action trace spelled out. -/
theorem transition_precedes_outcome_event_witness :
    ((wTrip.breaker.attempt 5).1 = true ∧
      ((wTrip.breaker.attempt 5).2.record 5
        (if truthy (cbFalse (idWorker [JSVal.num 1])) then Outcome.success
         else Outcome.failure)).2 = some (BState.Open, ⟨1, 1, 100⟩)) ∧
    (runModel "S" "N" wTrip 5 idWorker [JSVal.num 1] cbFalse).2 =
      [Action.attemptCheck true,
       Action.emit (emitWithArgs "S" "N" (wTrip.breaker.attempt 5).2.state "run" [JSVal.num 1]),
       Action.workerCall [JSVal.num 1],
       Action.cbCall (idWorker [JSVal.num 1]),
       Action.emit (Emitted.change "stateChange"
         (transitionPayload "S" "N"
           ((wTrip.breaker.attempt 5).2.record 5
             (if truthy (cbFalse (idWorker [JSVal.num 1])) then Outcome.success
              else Outcome.failure)).1.state wTrip.lastStateChange 5 ⟨1, 1, 100⟩)),
       Action.emit (Emitted.change
         (stateName ((wTrip.breaker.attempt 5).2.record 5
           (if truthy (cbFalse (idWorker [JSVal.num 1])) then Outcome.success
            else Outcome.failure)).1.state)
         (transitionPayload "S" "N"
           ((wTrip.breaker.attempt 5).2.record 5
             (if truthy (cbFalse (idWorker [JSVal.num 1])) then Outcome.success
              else Outcome.failure)).1.state wTrip.lastStateChange 5 ⟨1, 1, 100⟩)),
       Action.emit (emitWithArgs "S" "N"
         ((wTrip.breaker.attempt 5).2.record 5
           (if truthy (cbFalse (idWorker [JSVal.num 1])) then Outcome.success
            else Outcome.failure)).1.state
         (if truthy (cbFalse (idWorker [JSVal.num 1])) then "success" else "failure")
         [JSVal.num 1])] :=
  ⟨⟨by decide, by decide⟩,
   transition_precedes_outcome_event "S" "N" wTrip 5 idWorker [JSVal.num 1] cbFalse
     BState.Open ⟨1, 1, 100⟩ (by decide) (by decide)⟩

end CBW
